import Mathlib

/-!
Shallow embedding of the UDP tunnel channel of the playit agent core
(`packages/agent_core/src/tunnel/udp_tunnel.rs`) and of the keep-alive
timer of the example control loop
(`packages/agent_core/examples/echo_tunnel.rs`), with theorems checking
the natural-language specification against the code.

Machine integers (`u64` timestamps) are modelled as `Nat` with explicit
wrap-around of subtraction at `2 ^ 64`.  Socket I/O is modelled by
returning the list of transmitted datagrams; a received datagram is an
input.  A Rust `panic` (the `Option::unwrap` in `get_sock`) is a
distinguished outcome, separate from `Err` results.
-/

namespace PlayitUdp

/-- 2 ^ 64, the wrap-around modulus of the `u64` millisecond timestamps. -/
def U64 : Nat := 2 ^ 64

/-- Wrapping `u64` subtraction, as performed by `now_milli() - last_confirm`
and similar expressions in the Rust code when built in release mode. -/
def sub64 (a b : Nat) : Nat := (a % U64 + U64 - b % U64) % U64

theorem sub64_eq_sub (a b : Nat) (hba : b ≤ a) (ha : a < U64) :
    sub64 a b = a - b := by
  unfold sub64 U64 at *
  omega

/-- A socket address: IPv4 or IPv6, with the IP modelled as a `Nat`
(`std::net::SocketAddr`). -/
inductive SocketAddr
  | v4 (ip : Nat) (port : Nat)
  | v6 (ip : Nat) (port : Nat)
  deriving DecidableEq

/-- `SocketAddr::is_ipv4`. -/
def SocketAddr.is_ipv4 : SocketAddr → Bool
  | .v4 _ _ => true
  | .v6 _ _ => false

/-- `UdpChannelDetails` from `playit_agent_proto::control_messages`:
the negotiated tunnel endpoint plus the bearer token bytes.  Equality is
structural on both fields. -/
structure UdpChannelDetails where
  tunnel_addr : SocketAddr
  token : List Nat
  deriving DecidableEq

/-- Modelled from the spec: the flow codec (`UdpFlow` in
`udp_proto.rs`) is not part of the available source.  Per the spec it is
a per-client flow descriptor with two wire variants, a shorter one for
IPv4 endpoints and a longer one for IPv6, each carrying source and
destination endpoints; the exact lengths and byte layout are an
implementation choice. -/
inductive UdpFlow
  | v4 (src dst : Nat × Nat)
  | v6 (src dst : Nat × Nat)
  deriving DecidableEq

/-- `n` serialized big-endian into `w` bytes. -/
def natToBytes : Nat → Nat → List Nat
  | 0, _ => []
  | w + 1, n => natToBytes w (n / 256) ++ [n % 256]

theorem natToBytes_length (w n : Nat) : (natToBytes w n).length = w := by
  induction w generalizing n with
  | zero => rfl
  | succ w ih => simp [natToBytes, ih]

/-- Bytes decoded big-endian into a `Nat`. -/
def bytesToNat (bs : List Nat) : Nat :=
  bs.foldl (fun acc b => acc * 256 + b % 256) 0

/-- Modelled from the spec: wire length of the IPv4 flow-tail variant
(4-byte IPs and 2-byte ports for source and destination). -/
def UdpFlow.len_v4 : Nat := 12

/-- Modelled from the spec: wire length of the IPv6 flow-tail variant
(16-byte IPs and 2-byte ports for source and destination). -/
def UdpFlow.len_v6 : Nat := 36

/-- `UdpFlow::len`. -/
def UdpFlow.len : UdpFlow → Nat
  | .v4 _ _ => UdpFlow.len_v4
  | .v6 _ _ => UdpFlow.len_v6

/-- Modelled from the spec: `UdpFlow::write_to`, the fixed-length tail
encoding of a flow descriptor. -/
def UdpFlow.encode : UdpFlow → List Nat
  | .v4 (si, sp) (di, dp) =>
      natToBytes 4 si ++ natToBytes 2 sp ++ natToBytes 4 di ++ natToBytes 2 dp
  | .v6 (si, sp) (di, dp) =>
      natToBytes 16 si ++ natToBytes 2 sp ++ natToBytes 16 di ++ natToBytes 2 dp

/-- Modelled from the spec: `UdpFlow::from_tail` tries the known fixed
tail lengths against the end of the received buffer, and fails when the
buffer is too short to contain any variant. -/
def UdpFlow.from_tail (buf : List Nat) : Option UdpFlow :=
  if UdpFlow.len_v6 ≤ buf.length then
    let t := buf.drop (buf.length - UdpFlow.len_v6)
    some (.v6 (bytesToNat (t.take 16), bytesToNat ((t.drop 16).take 2))
              (bytesToNat ((t.drop 18).take 16), bytesToNat ((t.drop 34).take 2)))
  else if UdpFlow.len_v4 ≤ buf.length then
    let t := buf.drop (buf.length - UdpFlow.len_v4)
    some (.v4 (bytesToNat (t.take 4), bytesToNat ((t.drop 4).take 2))
              (bytesToNat ((t.drop 6).take 4), bytesToNat ((t.drop 10).take 2)))
  else none

/-- The mutable state of `UdpTunnel`'s `Inner`: whether the optional
IPv6 socket bound, the details slot, and the two atomic timestamps. -/
structure UdpTunnelState where
  udp6_bound : Bool
  details : Option UdpChannelDetails
  last_confirm : Nat
  last_send : Nat
  deriving DecidableEq

/-- Which of the two sockets a datagram goes out on. -/
inductive SockId
  | v4
  | v6
  deriving DecidableEq

/-- One transmitted datagram: the socket used, the destination, and the
payload bytes. -/
structure Sent where
  sock : SockId
  dest : SocketAddr
  data : List Nat
  deriving DecidableEq

/-- The `std::io::ErrorKind` values this module constructs. -/
inductive IoErrorKind
  | NotConnected
  | Unsupported
  | InvalidData
  | WriteZero
  deriving DecidableEq

/-- Outcome of a fallible operation: an `Ok` value, an `Err` kind, or a
Rust panic. -/
inductive IoOutcome (α : Type)
  | ok (a : α)
  | err (e : IoErrorKind)
  | panicked
  deriving DecidableEq

/-- Result of an operation that may transmit: the outcome, the state
after the call, and the datagrams transmitted during it. -/
structure TxResult (α : Type) where
  res : IoOutcome α
  state : UdpTunnelState
  sent : List Sent
  deriving DecidableEq

/-- `UdpTunnel::is_setup`. -/
def UdpTunnelState.is_setup (st : UdpTunnelState) : Bool :=
  st.details.isSome

/-- `UdpTunnel::requires_resend`: `10_000 < now_milli() - last_confirm`. -/
def UdpTunnelState.requires_resend (st : UdpTunnelState) (now : Nat) : Bool :=
  decide (10000 < sub64 now st.last_confirm)

/-- `UdpTunnel::requires_auth`: false when `last_send < last_confirm`,
otherwise `5_000 < now_milli() - last_send`. -/
def UdpTunnelState.requires_auth (st : UdpTunnelState) (now : Nat) : Bool :=
  if st.last_send < st.last_confirm then false
  else decide (5000 < sub64 now st.last_send)

/-- The socket matching an address family. -/
def sockFor (a : SocketAddr) : SockId :=
  if a.is_ipv4 then .v4 else .v6

/-- `UdpTunnel::send_token`: transmit the token to the endpoint over the
matching socket; `Unsupported` when the endpoint is IPv6 and no IPv6
socket is bound; on success store `now_milli()` into `last_send`. -/
def UdpTunnelState.send_token (st : UdpTunnelState) (details : UdpChannelDetails)
    (now : Nat) : TxResult Unit :=
  match details.tunnel_addr with
  | .v4 ip port =>
      { res := .ok ()
        state := { st with last_send := now }
        sent := [⟨.v4, .v4 ip port, details.token⟩] }
  | .v6 ip port =>
      if st.udp6_bound then
        { res := .ok ()
          state := { st with last_send := now }
          sent := [⟨.v6, .v6 ip port, details.token⟩] }
      else
        { res := .err .Unsupported, state := st, sent := [] }

/-- `UdpTunnel::set_udp_tunnel`: return `Ok` untouched when the new
details equal the installed ones; otherwise replace the slot, then send
the token. -/
def UdpTunnelState.set_udp_tunnel (st : UdpTunnelState) (details : UdpChannelDetails)
    (now : Nat) : TxResult Unit :=
  if st.details = some details then
    { res := .ok (), state := st, sent := [] }
  else
    UdpTunnelState.send_token { st with details := some details } details now

/-- `UdpTunnel::resend_token`: `Ok(false)` when no details are
installed; otherwise send the installed token and return `Ok(true)`,
propagating any send error. -/
def UdpTunnelState.resend_token (st : UdpTunnelState) (now : Nat) : TxResult Bool :=
  match st.details with
  | none => { res := .ok false, state := st, sent := [] }
  | some v =>
      let r := st.send_token v now
      match r.res with
      | .ok _ => { res := .ok true, state := r.state, sent := r.sent }
      | .err e => { res := .err e, state := r.state, sent := r.sent }
      | .panicked => { res := .panicked, state := r.state, sent := r.sent }

/-- Outcome of `UdpTunnel::get_sock`: the chosen socket, the tunnel
endpoint and the token; `NotConnected` when no details are installed;
a panic (from `udp6.as_ref().unwrap()`) when the endpoint is IPv6 and
no IPv6 socket is bound. -/
inductive GetSockOutcome
  | ok (sock : SockId) (addr : SocketAddr) (token : List Nat)
  | err (e : IoErrorKind)
  | panicked
  deriving DecidableEq

/-- `UdpTunnel::get_sock`. -/
def UdpTunnelState.get_sock (st : UdpTunnelState) : GetSockOutcome :=
  match st.details with
  | none => .err .NotConnected
  | some details =>
      if details.tunnel_addr.is_ipv4 then
        .ok .v4 details.tunnel_addr details.token
      else if st.udp6_bound then
        .ok .v6 details.tunnel_addr details.token
      else
        .panicked

/-- `UdpTunnel::send`: append the flow tail to the payload and transmit
to the installed endpoint over the socket chosen by `get_sock`;
`last_send` is not touched. -/
def UdpTunnelState.send (st : UdpTunnelState) (data : List Nat) (flow : UdpFlow) :
    TxResult Nat :=
  let payload := data ++ flow.encode
  match st.get_sock with
  | .err e => { res := .err e, state := st, sent := [] }
  | .panicked => { res := .panicked, state := st, sent := [] }
  | .ok sock addr _ =>
      { res := .ok payload.length, state := st, sent := [⟨sock, addr, payload⟩] }

/-- `UdpTunnelRx`. -/
inductive UdpTunnelRx
  | ReceivedPacket (bytes : Nat) (flow : UdpFlow)
  | ConfirmedConnection
  deriving DecidableEq

/-- Result of `receive_from`: the outcome and the state after the call. -/
structure RxResult where
  res : IoOutcome UdpTunnelRx
  state : UdpTunnelState
  deriving DecidableEq

/-- `UdpTunnel::receive_from` applied to one incoming datagram `data`
arriving from `remote` into a buffer of length `buffer_len`.  The OS
truncates the datagram to the buffer, so `bytes = min data.length
buffer_len` and `buffer[..bytes] = data.take buffer_len`.  Mirrors the
source: sender check (`InvalidData`), token confirmation (store
`now_milli()` into `last_confirm`), the `buffer.len() + max tail <
bytes` check (`WriteZero`), then the flow-tail parse (`InvalidData` on
failure). -/
def UdpTunnelState.receive_from (st : UdpTunnelState) (buffer_len : Nat)
    (data : List Nat) (remote : SocketAddr) (now : Nat) : RxResult :=
  match st.get_sock with
  | .err e => ⟨.err e, st⟩
  | .panicked => ⟨.panicked, st⟩
  | .ok _ tunnel_addr token =>
      let bytes := min data.length buffer_len
      let received := data.take buffer_len
      if tunnel_addr ≠ remote then
        ⟨.err .InvalidData, st⟩
      else if received = token then
        ⟨.ok .ConfirmedConnection, { st with last_confirm := now }⟩
      else if buffer_len + max UdpFlow.len_v4 UdpFlow.len_v6 < bytes then
        ⟨.err .WriteZero, st⟩
      else
        match UdpFlow.from_tail received with
        | none => ⟨.err .InvalidData, st⟩
        | some footer => ⟨.ok (.ReceivedPacket (bytes - footer.len) footer), st⟩

/-- One evaluation of the keep-alive timer at the bottom of the example
control loop: `time_till_expire = get_expire_at().max(now) - now`; send
iff `10_000 < now - last_keep_alive && time_till_expire < 30_000`, and
when sending set `last_keep_alive = now`.  Returns (sent?, new
`last_keep_alive`). -/
def keep_alive_step (last_keep_alive expire_at now : Nat) : Bool × Nat :=
  let time_till_expire := max expire_at now - now
  if 10000 < sub64 now last_keep_alive ∧ time_till_expire < 30000 then
    (true, now)
  else
    (false, last_keep_alive)

/-! ### Helper lemmas shared by the claim theorems -/

theorem get_sock_ok (st : UdpTunnelState) (d : UdpChannelDetails)
    (hd : st.details = some d)
    (hsock : d.tunnel_addr.is_ipv4 = true ∨ st.udp6_bound = true) :
    st.get_sock = .ok (sockFor d.tunnel_addr) d.tunnel_addr d.token := by
  unfold UdpTunnelState.get_sock sockFor
  rw [hd]
  rcases hsock with h | h
  · simp [h]
  · by_cases h4 : d.tunnel_addr.is_ipv4 <;> simp [h, h4]

theorem get_sock_cases (st : UdpTunnelState) :
    st.get_sock = .err .NotConnected ∨ st.get_sock = .panicked ∨
      ∃ s a t, st.get_sock = .ok s a t := by
  unfold UdpTunnelState.get_sock
  cases st.details with
  | none => exact Or.inl rfl
  | some d =>
      by_cases h4 : d.tunnel_addr.is_ipv4 = true
      · exact Or.inr (Or.inr ⟨.v4, d.tunnel_addr, d.token, by simp [h4]⟩)
      · by_cases h6 : st.udp6_bound = true
        · exact Or.inr (Or.inr ⟨.v6, d.tunnel_addr, d.token, by simp [h4, h6]⟩)
        · exact Or.inr (Or.inl (by simp [h4, h6]))

theorem send_token_ok (st : UdpTunnelState) (d : UdpChannelDetails) (now : Nat)
    (hok : d.tunnel_addr.is_ipv4 = true ∨ st.udp6_bound = true) :
    st.send_token d now =
      ⟨.ok (), { st with last_send := now },
        [⟨sockFor d.tunnel_addr, d.tunnel_addr, d.token⟩]⟩ := by
  unfold UdpTunnelState.send_token sockFor
  rcases h : d.tunnel_addr with _ | _
  · simp [SocketAddr.is_ipv4]
  · rcases hok with h4 | h6
    · rw [h] at h4
      simp [SocketAddr.is_ipv4] at h4
    · simp [SocketAddr.is_ipv4, h6]

theorem send_token_unsupported (st : UdpTunnelState) (d : UdpChannelDetails)
    (now : Nat) (h4 : d.tunnel_addr.is_ipv4 = false) (h6 : st.udp6_bound = false) :
    st.send_token d now = ⟨.err .Unsupported, st, []⟩ := by
  unfold UdpTunnelState.send_token
  rcases h : d.tunnel_addr with _ | _
  · rw [h] at h4
    simp [SocketAddr.is_ipv4] at h4
  · simp [h6]

theorem from_tail_short (buf : List Nat) (h : buf.length < UdpFlow.len_v4) :
    UdpFlow.from_tail buf = none := by
  unfold UdpFlow.from_tail
  have h6 : ¬ UdpFlow.len_v6 ≤ buf.length := by
    unfold UdpFlow.len_v4 at h
    unfold UdpFlow.len_v6
    omega
  have h4 : ¬ UdpFlow.len_v4 ≤ buf.length := by omega
  simp [h4, h6]

theorem receive_from_res_ne_writeZero (st : UdpTunnelState) (bl : Nat)
    (data : List Nat) (remote : SocketAddr) (now : Nat) :
    (st.receive_from bl data remote now).res ≠ .err .WriteZero := by
  unfold UdpTunnelState.receive_from
  rcases get_sock_cases st with h | h | ⟨s, a, t, h⟩ <;> rw [h]
  · simp
  · simp
  · have hmin : min data.length bl ≤ bl := Nat.min_le_right _ _
    by_cases h1 : a ≠ remote
    · simp [h1]
    · by_cases h2 : data.take bl = t
      · simp [h1, h2]
      · have h3 : ¬ (bl + max UdpFlow.len_v4 UdpFlow.len_v6 < min data.length bl) := by
          omega
        simp only [h1, h2, h3, if_neg, if_false, ite_false]
        cases hf : UdpFlow.from_tail (data.take bl) <;> simp [h1, h2, h3, hf]

/-! ### Claim theorems -/

/-- State for the IPv6 cases: details installed with an IPv6 tunnel
endpoint, no IPv6 socket bound. -/
def c1St : UdpTunnelState :=
  ⟨false, some ⟨.v6 1 9000, [170]⟩, 0, 0⟩

/-- Claim C1: the claim says `send` and `receive_from` return an
`Unsupported` error (not a panic) when the endpoint is IPv6 and no IPv6
socket is bound.  In the code, `get_sock` calls
`udp6.as_ref().unwrap()`, so both operations panic there instead of
returning `Err(Unsupported)` (and nothing is transmitted, so there is
also no IPv4 fallback); the `NotConnected` half of the claim does hold.
This contradicts `send_token` in the same file, which returns
`Unsupported` for the same condition. -/
theorem C1_ipv6_unwrap_panics :
    (c1St.send [1, 2, 3] (.v4 (7, 1) (8, 2))).res = .panicked ∧
    (c1St.send [1, 2, 3] (.v4 (7, 1) (8, 2))).sent = [] ∧
    (c1St.receive_from 2048 [170] (.v6 1 9000) 5).res = .panicked ∧
    ((⟨false, none, 0, 0⟩ : UdpTunnelState).send [1, 2, 3]
        (.v4 (7, 1) (8, 2))).res = .err .NotConnected ∧
    ((⟨false, none, 0, 0⟩ : UdpTunnelState).receive_from 2048 [170]
        (.v6 1 9000) 5).res = .err .NotConnected := by
  decide

/-- State for the C2 counterexample: IPv4 endpoint, 4-byte token. -/
def c2St : UdpTunnelState :=
  ⟨true, some ⟨.v4 5 9000, [170, 187, 204, 221]⟩, 0, 0⟩

/-- Claim C2, counterexample: a 1-byte non-token datagram from the
trusted endpoint (shorter than the smallest flow tail) makes
`receive_from` fail with `InvalidData`, not `WriteZero` as the claim
states. -/
theorem C2_counterexample :
    (c2St.receive_from 2048 [1] (.v4 5 9000) 77).res = .err .InvalidData ∧
    (c2St.receive_from 2048 [1] (.v4 5 9000) 77).res ≠ .err .WriteZero ∧
    [1] ≠ ([170, 187, 204, 221] : List Nat) ∧
    1 < min UdpFlow.len_v4 UdpFlow.len_v6 := by
  decide

/-- Claim C2, amended: a non-token datagram from the trusted endpoint
shorter than the smallest flow-tail length fails with `InvalidData`
(the flow-tail parse fails), the state is unchanged, and `receive_from`
never returns `WriteZero` (its `WriteZero` guard needs the received
byte count to exceed the buffer length plus the larger tail length,
which truncation makes impossible). -/
theorem C2_short_nontoken (st : UdpTunnelState) (d : UdpChannelDetails)
    (bl : Nat) (data : List Nat) (now : Nat)
    (hd : st.details = some d)
    (hsock : d.tunnel_addr.is_ipv4 = true ∨ st.udp6_bound = true)
    (hlen : data.length ≤ bl) (hshort : data.length < UdpFlow.len_v4)
    (hne : data ≠ d.token) :
    (st.receive_from bl data d.tunnel_addr now).res = .err .InvalidData ∧
    (st.receive_from bl data d.tunnel_addr now).state = st ∧
    ∀ (st2 : UdpTunnelState) (bl2 : Nat) (data2 : List Nat)
      (remote2 : SocketAddr) (now2 : Nat),
      (st2.receive_from bl2 data2 remote2 now2).res ≠ .err .WriteZero := by
  have htake : data.take bl = data := List.take_of_length_le hlen
  have hmin : min data.length bl ≤ bl := Nat.min_le_right _ _
  have h3 : ¬ (bl + max UdpFlow.len_v4 UdpFlow.len_v6 < min data.length bl) := by
    omega
  have hft : UdpFlow.from_tail data = none := from_tail_short data hshort
  have key : st.receive_from bl data d.tunnel_addr now = ⟨.err .InvalidData, st⟩ := by
    unfold UdpTunnelState.receive_from
    rw [get_sock_ok st d hd hsock]
    simp [htake, hne, h3, hft]
  refine ⟨by rw [key], by rw [key], ?_⟩
  intro st2 bl2 data2 remote2 now2
  exact receive_from_res_ne_writeZero st2 bl2 data2 remote2 now2

/-- Claim C2, amended witness: a 1-byte non-token datagram from the
trusted endpoint yields `InvalidData`. -/
theorem C2_short_nontoken_witness :
    (c2St.receive_from 2048 [9] (.v4 5 9000) 3).res = .err .InvalidData :=
  (C2_short_nontoken c2St ⟨.v4 5 9000, [170, 187, 204, 221]⟩ 2048 [9] 3 rfl
    (Or.inl rfl) (by decide) (by decide) (by decide)).1

/-- State for the C3 counterexample: `last_send = last_confirm = 1000`. -/
def c3St : UdpTunnelState := ⟨true, none, 1000, 1000⟩

/-- Claim C3, counterexample: with `last_confirm = last_send = 1000` and
`now = 7001`, we have `last_confirm >= last_send`, yet `requires_auth`
returns `true` (the code only short-circuits on the strict
`last_send < last_confirm`), contradicting the claim's "whenever
last_confirm >= last_send it returns false". -/
theorem C3_counterexample :
    c3St.last_confirm ≥ c3St.last_send ∧ c3St.requires_auth 7001 = true := by
  constructor
  · decide
  · unfold UdpTunnelState.requires_auth c3St
    rw [sub64_eq_sub 7001 1000 (by omega) (by unfold U64; omega)]
    decide

/-- Claim C3, amended: `requires_auth` returns true iff
`last_confirm <= last_send` and more than 5,000 ms have elapsed since
`last_send`; whenever `last_confirm > last_send` (strictly) it returns
false regardless of elapsed time. -/
theorem C3_requires_auth (st : UdpTunnelState) (now : Nat)
    (h1 : st.last_send ≤ now) (h2 : now < U64) :
    (st.requires_auth now = true ↔
      st.last_confirm ≤ st.last_send ∧ 5000 < now - st.last_send) ∧
    (st.last_send < st.last_confirm → st.requires_auth now = false) := by
  unfold UdpTunnelState.requires_auth
  rw [sub64_eq_sub now st.last_send h1 h2]
  constructor
  · by_cases h : st.last_send < st.last_confirm
    · rw [if_pos h]
      constructor
      · intro hfalse
        exact (Bool.false_ne_true hfalse).elim
      · intro hand
        exact absurd hand.1 (by omega)
    · rw [if_neg h]
      simp only [decide_eq_true_eq]
      omega
  · intro h
    simp [h]

/-- Claim C3, amended witness at `last_send = 1000`,
`last_confirm = 500`, `now = 7001`. -/
theorem C3_requires_auth_witness :
    (⟨true, none, 500, 1000⟩ : UdpTunnelState).requires_auth 7001 = true :=
  ((C3_requires_auth ⟨true, none, 500, 1000⟩ 7001 (by decide)
      (by unfold U64; decide)).1).mpr (by decide)

/-- Claim C4: `requires_resend` returns true iff more than 10,000 ms
have elapsed since `last_confirm`; in particular it is true at
`last_confirm = now - 11000` and false at `last_confirm = now - 9000`. -/
theorem C4_requires_resend (st : UdpTunnelState) (now : Nat)
    (h1 : st.last_confirm ≤ now) (h2 : now < U64) :
    (st.requires_resend now = true ↔ 10000 < now - st.last_confirm) ∧
    (st.last_confirm = now - 11000 → 11000 ≤ now →
        st.requires_resend now = true) ∧
    (st.last_confirm = now - 9000 → st.requires_resend now = false) := by
  unfold UdpTunnelState.requires_resend
  rw [sub64_eq_sub now st.last_confirm h1 h2]
  refine ⟨by simp, ?_, ?_⟩
  · intro h hle
    simp only [decide_eq_true_eq]
    omega
  · intro h
    simp only [decide_eq_false_iff_not]
    omega

/-- Claim C4, witness: `last_confirm = 20000 - 11000 = 9000`,
`now = 20000` gives `requires_resend = true`. -/
theorem C4_requires_resend_witness :
    (⟨true, none, 9000, 0⟩ : UdpTunnelState).requires_resend 20000 = true :=
  (C4_requires_resend ⟨true, none, 9000, 0⟩ 20000 (by decide)
      (by unfold U64; decide)).2.1 (by decide) (by decide)

/-- Claim C5: `set_udp_tunnel` is a transmission-free no-op on
structurally equal details, and on differing (or first) details it
replaces the slot and transmits the token once to the new endpoint, so
two consecutive calls with equal details transmit exactly once. -/
theorem C5_set_udp_tunnel (st : UdpTunnelState) (details : UdpChannelDetails)
    (now now2 : Nat)
    (hne : st.details ≠ some details)
    (hok : details.tunnel_addr.is_ipv4 = true ∨ st.udp6_bound = true) :
    (∀ st2 : UdpTunnelState, st2.details = some details →
        st2.set_udp_tunnel details now2 = ⟨.ok (), st2, []⟩) ∧
    st.set_udp_tunnel details now =
      ⟨.ok (), { st with details := some details, last_send := now },
        [⟨sockFor details.tunnel_addr, details.tunnel_addr, details.token⟩]⟩ ∧
    (st.set_udp_tunnel details now).state.set_udp_tunnel details now2 =
      ⟨.ok (), (st.set_udp_tunnel details now).state, []⟩ := by
  have hnoop : ∀ st2 : UdpTunnelState, st2.details = some details →
      st2.set_udp_tunnel details now2 = ⟨.ok (), st2, []⟩ := by
    intro st2 h2
    unfold UdpTunnelState.set_udp_tunnel
    rw [if_pos h2]
  have hok2 : details.tunnel_addr.is_ipv4 = true ∨
      ({ st with details := some details } : UdpTunnelState).udp6_bound = true := hok
  have hr : st.set_udp_tunnel details now =
      ⟨.ok (), { st with details := some details, last_send := now },
        [⟨sockFor details.tunnel_addr, details.tunnel_addr, details.token⟩]⟩ := by
    unfold UdpTunnelState.set_udp_tunnel
    rw [if_neg hne]
    exact send_token_ok { st with details := some details } details now hok2
  refine ⟨hnoop, hr, ?_⟩
  rw [hr]
  exact hnoop _ rfl

/-- Claim C5, witness: installing fresh IPv4 details transmits the
token once; repeating the call transmits nothing and changes nothing. -/
theorem C5_set_udp_tunnel_witness :
    (⟨true, none, 0, 0⟩ : UdpTunnelState).set_udp_tunnel ⟨.v4 5 9000, [1, 2]⟩ 10 =
      ⟨.ok (), ⟨true, some ⟨.v4 5 9000, [1, 2]⟩, 0, 10⟩,
        [⟨.v4, .v4 5 9000, [1, 2]⟩]⟩ ∧
    ((⟨true, none, 0, 0⟩ : UdpTunnelState).set_udp_tunnel
        ⟨.v4 5 9000, [1, 2]⟩ 10).state.set_udp_tunnel ⟨.v4 5 9000, [1, 2]⟩ 20 =
      ⟨.ok (), ((⟨true, none, 0, 0⟩ : UdpTunnelState).set_udp_tunnel
        ⟨.v4 5 9000, [1, 2]⟩ 10).state, []⟩ := by
  have h := C5_set_udp_tunnel ⟨true, none, 0, 0⟩ ⟨.v4 5 9000, [1, 2]⟩ 10 20
    (by decide) (Or.inl (by decide))
  exact ⟨h.2.1, h.2.2⟩

/-- Claim C6: a datagram from the trusted endpoint whose received
payload equals the installed token byte-for-byte yields
`ConfirmedConnection` and sets `last_confirm` to `now`; any payload
differing from the token is never classified as confirmation and leaves
`last_confirm` unchanged, whatever the sender. -/
theorem C6_token_confirmation (st : UdpTunnelState) (d : UdpChannelDetails)
    (bl : Nat) (data : List Nat) (now : Nat)
    (hd : st.details = some d)
    (hsock : d.tunnel_addr.is_ipv4 = true ∨ st.udp6_bound = true)
    (hlen : data.length ≤ bl) :
    (data = d.token →
        st.receive_from bl data d.tunnel_addr now =
          ⟨.ok .ConfirmedConnection, { st with last_confirm := now }⟩) ∧
    (∀ remote : SocketAddr, data ≠ d.token →
        (st.receive_from bl data remote now).res ≠ .ok .ConfirmedConnection ∧
        (st.receive_from bl data remote now).state.last_confirm =
          st.last_confirm) := by
  have htake : data.take bl = data := List.take_of_length_le hlen
  have hmin : min data.length bl ≤ bl := Nat.min_le_right _ _
  have h3 : ¬ (bl + max UdpFlow.len_v4 UdpFlow.len_v6 < min data.length bl) := by
    omega
  constructor
  · intro heq
    subst heq
    unfold UdpTunnelState.receive_from
    rw [get_sock_ok st d hd hsock]
    simp [htake]
  · intro remote hne
    unfold UdpTunnelState.receive_from
    rw [get_sock_ok st d hd hsock]
    by_cases hr : d.tunnel_addr = remote
    · subst hr
      simp only [htake]
      cases hf : UdpFlow.from_tail data <;> simp [htake, hne, h3, hf]
    · simp [hr]

/-- Claim C6, witness: token `[170, 187]` echoed back from the trusted
endpoint confirms the connection and stamps `last_confirm`. -/
theorem C6_token_confirmation_witness :
    (⟨true, some ⟨.v4 5 9000, [170, 187]⟩, 0, 0⟩ : UdpTunnelState).receive_from
        2048 [170, 187] (.v4 5 9000) 42 =
      ⟨.ok .ConfirmedConnection,
        ⟨true, some ⟨.v4 5 9000, [170, 187]⟩, 42, 0⟩⟩ :=
  (C6_token_confirmation ⟨true, some ⟨.v4 5 9000, [170, 187]⟩, 0, 0⟩
      ⟨.v4 5 9000, [170, 187]⟩ 2048 [170, 187] 42 rfl (Or.inr rfl)
      (by decide)).1 rfl

/-- Claim C7: a datagram whose sender is not exactly the installed
tunnel endpoint fails with `InvalidData` and leaves the whole state
(including both timestamps) unchanged. -/
theorem C7_spoof_rejected (st : UdpTunnelState) (d : UdpChannelDetails)
    (bl : Nat) (data : List Nat) (remote : SocketAddr) (now : Nat)
    (hd : st.details = some d)
    (hsock : d.tunnel_addr.is_ipv4 = true ∨ st.udp6_bound = true)
    (hrem : remote ≠ d.tunnel_addr) :
    st.receive_from bl data remote now = ⟨.err .InvalidData, st⟩ := by
  have hne2 : d.tunnel_addr ≠ remote := fun h => hrem h.symm
  unfold UdpTunnelState.receive_from
  rw [get_sock_ok st d hd hsock]
  simp [hne2]

/-- Claim C7, witness: a datagram from port 9001 instead of the
installed 9000 is rejected with `InvalidData` and no state change. -/
theorem C7_spoof_rejected_witness :
    (⟨true, some ⟨.v4 5 9000, [170]⟩, 3, 4⟩ : UdpTunnelState).receive_from
        2048 [170] (.v4 5 9001) 42 =
      ⟨.err .InvalidData, ⟨true, some ⟨.v4 5 9000, [170]⟩, 3, 4⟩⟩ :=
  C7_spoof_rejected ⟨true, some ⟨.v4 5 9000, [170]⟩, 3, 4⟩ ⟨.v4 5 9000, [170]⟩
    2048 [170] (.v4 5 9001) 42 rfl (Or.inl rfl) (by decide)

/-- Claim C8: `resend_token` returns `Ok(false)` with no transmission
and no state change when no details are installed; with details
installed and a usable socket it retransmits the token to the installed
endpoint, returns `Ok(true)` and stamps `last_send`; when the
transmission fails (IPv6 endpoint, no IPv6 socket) it returns the error
and `last_send` is not updated. -/
theorem C8_resend_token (st : UdpTunnelState) (now : Nat) :
    (st.details = none → st.resend_token now = ⟨.ok false, st, []⟩) ∧
    (∀ d : UdpChannelDetails, st.details = some d →
      (d.tunnel_addr.is_ipv4 = true ∨ st.udp6_bound = true →
          st.resend_token now =
            ⟨.ok true, { st with last_send := now },
              [⟨sockFor d.tunnel_addr, d.tunnel_addr, d.token⟩]⟩) ∧
      (d.tunnel_addr.is_ipv4 = false → st.udp6_bound = false →
          st.resend_token now = ⟨.err .Unsupported, st, []⟩)) := by
  constructor
  · intro h
    unfold UdpTunnelState.resend_token
    rw [h]
  · intro d hd
    constructor
    · intro hok
      simp [UdpTunnelState.resend_token, hd, send_token_ok st d now hok]
    · intro h4 h6
      simp [UdpTunnelState.resend_token, hd, send_token_unsupported st d now h4 h6]

/-- Claim C8, witness: with no details `resend_token` is `Ok(false)`
and silent; with IPv4 details it resends the token and is `Ok(true)`. -/
theorem C8_resend_token_witness :
    (⟨true, none, 0, 0⟩ : UdpTunnelState).resend_token 9 =
      ⟨.ok false, ⟨true, none, 0, 0⟩, []⟩ ∧
    (⟨true, some ⟨.v4 5 9000, [1]⟩, 0, 0⟩ : UdpTunnelState).resend_token 9 =
      ⟨.ok true, ⟨true, some ⟨.v4 5 9000, [1]⟩, 0, 9⟩,
        [⟨.v4, .v4 5 9000, [1]⟩]⟩ :=
  ⟨(C8_resend_token ⟨true, none, 0, 0⟩ 9).1 rfl,
    ((C8_resend_token ⟨true, some ⟨.v4 5 9000, [1]⟩, 0, 0⟩ 9).2
      ⟨.v4 5 9000, [1]⟩ rfl).1 (Or.inl rfl)⟩

/-- Claim C9: when `set_udp_tunnel` installs differing details and the
token transmission then fails (IPv6 endpoint with no IPv6 socket), the
call returns the I/O error but the new details stay installed — the
slot was replaced before the transmission — so a subsequent
`resend_token` reads the new details (and here fails the same way,
rather than returning `Ok(false)`). -/
theorem C9_details_kept_on_failure (st : UdpTunnelState)
    (details : UdpChannelDetails) (now now2 : Nat)
    (hne : st.details ≠ some details)
    (h4 : details.tunnel_addr.is_ipv4 = false)
    (h6 : st.udp6_bound = false) :
    st.set_udp_tunnel details now =
      ⟨.err .Unsupported, { st with details := some details }, []⟩ ∧
    ({ st with details := some details } : UdpTunnelState).resend_token now2 =
      ⟨.err .Unsupported, { st with details := some details }, []⟩ := by
  constructor
  · unfold UdpTunnelState.set_udp_tunnel
    rw [if_neg hne]
    exact send_token_unsupported { st with details := some details } details now h4 h6
  · unfold UdpTunnelState.resend_token
    simp [send_token_unsupported { st with details := some details } details now2 h4 h6]

/-- Claim C9, witness: installing IPv6 details with no IPv6 socket
fails with `Unsupported`, yet the details slot holds the new value and
`resend_token` afterwards attempts them. -/
theorem C9_details_kept_on_failure_witness :
    (⟨false, none, 0, 0⟩ : UdpTunnelState).set_udp_tunnel ⟨.v6 9 1, [7]⟩ 5 =
      ⟨.err .Unsupported, ⟨false, some ⟨.v6 9 1, [7]⟩, 0, 0⟩, []⟩ ∧
    (⟨false, some ⟨.v6 9 1, [7]⟩, 0, 0⟩ : UdpTunnelState).resend_token 6 =
      ⟨.err .Unsupported, ⟨false, some ⟨.v6 9 1, [7]⟩, 0, 0⟩, []⟩ :=
  C9_details_kept_on_failure ⟨false, none, 0, 0⟩ ⟨.v6 9 1, [7]⟩ 5 6
    (by decide) rfl rfl

/-- Claim C10, counterexample: with exactly 10,000 ms elapsed since the
last keep-alive (`now = 10000`, `last_keep_alive = 0`) and the session
about to expire (`expire_at = now`, so 0 ms remain, under 30,000), the
code does not send a keep-alive, though the claim's "at least 10,000 ms
have passed" condition holds. -/
theorem C10_counterexample :
    keep_alive_step 0 10000 10000 = (false, 0) ∧
    10000 - 0 ≥ 10000 ∧ max 10000 10000 - 10000 < 30000 := by
  constructor
  · unfold keep_alive_step sub64 U64
    norm_num
  · decide

/-- Claim C10, amended: a keep-alive is sent iff the time remaining
until the advertised expiry is under 30,000 ms and strictly more than
10,000 ms have passed since the last keep-alive; when sent, the
last-keep-alive timestamp becomes `now`, otherwise it is unchanged. -/
theorem C10_keep_alive (lka expire now : Nat)
    (h1 : lka ≤ now) (h2 : now < U64) :
    ((keep_alive_step lka expire now).1 = true ↔
      (10000 < now - lka ∧ max expire now - now < 30000)) ∧
    ((keep_alive_step lka expire now).1 = true →
      (keep_alive_step lka expire now).2 = now) ∧
    ((keep_alive_step lka expire now).1 = false →
      (keep_alive_step lka expire now).2 = lka) := by
  unfold keep_alive_step
  rw [sub64_eq_sub now lka h1 h2]
  by_cases h : 10000 < now - lka ∧ max expire now - now < 30000
  · simp [h]
  · simp [h]

/-- Claim C10, amended witness: at 10,001 ms elapsed and 0 ms to
expiry the keep-alive is sent and the timestamp becomes `now`. -/
theorem C10_keep_alive_witness :
    (keep_alive_step 0 10001 10001).1 = true ∧
    (keep_alive_step 0 10001 10001).2 = 10001 := by
  have h := C10_keep_alive 0 10001 10001 (by decide) (by unfold U64; decide)
  have hs : (keep_alive_step 0 10001 10001).1 = true := h.1.mpr (by decide)
  exact ⟨hs, h.2.1 hs⟩

end PlayitUdp
